import Mathlib

/-!
Verification development for the key-lifecycle and request-admission gateway
implemented in `src/app.py`.

Modelling conventions:
- Times are integers (seconds since an arbitrary epoch); `datetime.now()`
  becomes an explicit `now` parameter, `timedelta(hours=h)` becomes
  `h * 3600`, and `timedelta(minutes=1)` / `timedelta(hours=1)` become
  `60` / `3600` in the rate limiter.
- SHA-256 (`hash_key`) is passed as an explicit function parameter `hashKey`,
  since no property below depends on the digest itself.
- Outbound HTTP calls (`requests.get` / `requests.post` in `auto_rotate_key`,
  and `validate_ha_token`) are modelled by explicit parameters that describe
  their outcome.
- Python dictionaries (`keys_db`, `rate_limit_store`) are association lists
  with in-place update semantics (replace the existing binding in place,
  append new bindings at the end).
- Fields that a given Python record may lack (`last_used`, `deprecated_at`,
  `grace_until`, `revoked_at`) are `Option`-valued; `none` means the field is
  absent from the dictionary.  Reading an absent `grace_until` raises in
  Python (`datetime.fromisoformat(None)`); that exceptional outcome is
  modelled explicitly (`AuthResult.exn`, and `cleanup_expired_keys` returning
  `none`).
- Python string functions on header values (`split(',')[0]`, `strip`,
  `startswith('Bearer ')`, `[7:]`) are modelled over the character list of
  the string.
-/

namespace Gateway

abbrev Time := Int

/-- One record of `keys_db` (shape created by `add_key` in src/app.py). -/
structure KeyRecord where
  hash : String
  name : String
  description : String
  created_at : Time
  last_used : Option Time
  status : String
  usage_count : Nat
  deprecated_at : Option Time
  grace_until : Option Time
  revoked_at : Option Time
  deriving DecidableEq

/-- Lookup in an association list (Python dictionary read). -/
def alistGet {α : Type} : List (String × α) → String → Option α
  | [], _ => none
  | (k0, v0) :: rest, k => if k0 = k then some v0 else alistGet rest k

/-- Update/insert in an association list (Python dictionary assignment:
replace in place if present, append otherwise). -/
def alistSet {α : Type} : List (String × α) → String → α → List (String × α)
  | [], k, v => [(k, v)]
  | (k0, v0) :: rest, k, v =>
    if k0 = k then (k, v) :: rest else (k0, v0) :: alistSet rest k v

abbrev KeysDb := List (String × KeyRecord)

/-- `add_key` (src/app.py lines 98-119): insert a fresh active record. -/
def add_key (hashKey : String → String) (db : KeysDb) (now : Time)
    (key : String) (name : String) (description : String) : KeyRecord × KeysDb :=
  let key_hash := hashKey key
  let key_data : KeyRecord :=
    { hash := key_hash
      name := name
      description := description
      created_at := now
      last_used := none
      status := "active"
      usage_count := 0
      deprecated_at := none
      grace_until := none
      revoked_at := none }
  (key_data, alistSet db key_hash key_data)

/-- The in-place usage update a `find_key` hit performs (lines 132-134). -/
def touchRecord (key_data : KeyRecord) (now : Time) : KeyRecord :=
  { key_data with
    last_used := some now
    usage_count := key_data.usage_count + 1 }

/-- The in-place field updates of `revoke_key` (lines 145-146). -/
def revokeRecord (key_data : KeyRecord) (now : Time) : KeyRecord :=
  { key_data with
    status := "revoked"
    revoked_at := some now }

/-- The in-place field updates of `deprecate_key` (lines 156-160). -/
def deprecateRecord (key_data : KeyRecord) (grace_hours : Int) (now : Time) :
    KeyRecord :=
  { key_data with
    status := "deprecated"
    deprecated_at := some now
    grace_until := some (now + grace_hours * 3600) }

@[simp] theorem touchRecord_hash (kd : KeyRecord) (now : Time) :
    (touchRecord kd now).hash = kd.hash := rfl

@[simp] theorem touchRecord_name (kd : KeyRecord) (now : Time) :
    (touchRecord kd now).name = kd.name := rfl

@[simp] theorem touchRecord_status (kd : KeyRecord) (now : Time) :
    (touchRecord kd now).status = kd.status := rfl

@[simp] theorem touchRecord_last_used (kd : KeyRecord) (now : Time) :
    (touchRecord kd now).last_used = some now := rfl

@[simp] theorem touchRecord_usage_count (kd : KeyRecord) (now : Time) :
    (touchRecord kd now).usage_count = kd.usage_count + 1 := rfl

@[simp] theorem touchRecord_deprecated_at (kd : KeyRecord) (now : Time) :
    (touchRecord kd now).deprecated_at = kd.deprecated_at := rfl

@[simp] theorem touchRecord_grace_until (kd : KeyRecord) (now : Time) :
    (touchRecord kd now).grace_until = kd.grace_until := rfl

@[simp] theorem touchRecord_revoked_at (kd : KeyRecord) (now : Time) :
    (touchRecord kd now).revoked_at = kd.revoked_at := rfl

@[simp] theorem revokeRecord_status (kd : KeyRecord) (now : Time) :
    (revokeRecord kd now).status = "revoked" := rfl

@[simp] theorem revokeRecord_revoked_at (kd : KeyRecord) (now : Time) :
    (revokeRecord kd now).revoked_at = some now := rfl

@[simp] theorem revokeRecord_grace_until (kd : KeyRecord) (now : Time) :
    (revokeRecord kd now).grace_until = kd.grace_until := rfl

@[simp] theorem revokeRecord_deprecated_at (kd : KeyRecord) (now : Time) :
    (revokeRecord kd now).deprecated_at = kd.deprecated_at := rfl

@[simp] theorem revokeRecord_name (kd : KeyRecord) (now : Time) :
    (revokeRecord kd now).name = kd.name := rfl

@[simp] theorem deprecateRecord_status (kd : KeyRecord) (g : Int) (now : Time) :
    (deprecateRecord kd g now).status = "deprecated" := rfl

@[simp] theorem deprecateRecord_grace_until (kd : KeyRecord) (g : Int) (now : Time) :
    (deprecateRecord kd g now).grace_until = some (now + g * 3600) := rfl

@[simp] theorem deprecateRecord_deprecated_at (kd : KeyRecord) (g : Int) (now : Time) :
    (deprecateRecord kd g now).deprecated_at = some now := rfl

@[simp] theorem deprecateRecord_revoked_at (kd : KeyRecord) (g : Int) (now : Time) :
    (deprecateRecord kd g now).revoked_at = kd.revoked_at := rfl

@[simp] theorem deprecateRecord_name (kd : KeyRecord) (g : Int) (now : Time) :
    (deprecateRecord kd g now).name = kd.name := rfl

/-- `find_key` (lines 122-139): hash the provided secret, look it up; on a hit
update `last_used` and `usage_count` in place and return the updated record. -/
def find_key (hashKey : String → String) (db : KeysDb) (now : Time)
    (provided_key : String) : Option KeyRecord × KeysDb :=
  let key_hash := hashKey provided_key
  match alistGet db key_hash with
  | some key_data =>
    (some (touchRecord key_data now), alistSet db key_hash (touchRecord key_data now))
  | none => (none, db)

/-- `revoke_key` (lines 142-150): set status to revoked and stamp
`revoked_at`; no guard on the current status, no other field is touched. -/
def revoke_key (key_hash : String) (now : Time) (db : KeysDb) : Bool × KeysDb :=
  match alistGet db key_hash with
  | some key_data => (true, alistSet db key_hash (revokeRecord key_data now))
  | none => (false, db)

/-- `deprecate_key` (lines 153-164): set status to deprecated and stamp
`deprecated_at` / `grace_until = now + grace_hours`; no guard on the current
status, no other field is touched. -/
def deprecate_key (key_hash : String) (grace_hours : Int) (now : Time)
    (db : KeysDb) : Bool × KeysDb :=
  match alistGet db key_hash with
  | some key_data =>
    (true, alistSet db key_hash (deprecateRecord key_data grace_hours now))
  | none => (false, db)

/-- One step of `cleanup_expired_keys` (lines 167-182) applied to a single
record; `none` models the `datetime.fromisoformat` exception raised when a
deprecated record lacks `grace_until`. -/
def cleanupRecord (now : Time) (key_data : KeyRecord) : Option KeyRecord :=
  if key_data.status = "deprecated" then
    match key_data.grace_until with
    | none => none
    | some grace_until =>
      if now > grace_until then some (revokeRecord key_data now)
      else some key_data
  else some key_data

/-- `cleanup_expired_keys` (lines 167-182): revoke every deprecated record
past its grace period.  The `none` result models the uncaught exception when
a deprecated record has no `grace_until`. -/
def cleanup_expired_keys (now : Time) : KeysDb → Option KeysDb
  | [] => some []
  | (key_hash, key_data) :: rest =>
    match cleanupRecord now key_data, cleanup_expired_keys now rest with
    | some key_data1, some rest1 => some ((key_hash, key_data1) :: rest1)
    | _, _ => none

/-- `migrate_legacy_keys` (lines 185-207): add each legacy plain secret whose
hash is not yet in the database, named by its 1-based position. -/
def migrate_legacy_keys (hashKey : String → String) (now : Time)
    (legacy_keys : List String) (db : KeysDb) : KeysDb :=
  legacy_keys.enum.foldl
    (fun acc ik =>
      if (alistGet acc (hashKey ik.2)).isSome then acc
      else (add_key hashKey acc now ik.2 ("Migrated Key " ++ toString (ik.1 + 1))
        "Auto-migrated from legacy config").2)
    db

/-- Addon configuration (`/data/options.json`), with the defaults applied at
the `config.get` call sites of src/app.py. -/
structure Config where
  enable_emergency_disable : Bool
  ip_whitelist : List String
  rate_limit_per_minute : Nat
  rate_limit_per_hour : Nat
  auth_mode : String
  master_key : Option String
  api_keys : List String
  deriving DecidableEq

/-- The header values and peer address of one inbound request; `none` means
the header is absent. -/
structure Request where
  x_ingress_path : Option String
  x_hassio_key : Option String
  authorization : Option String
  x_forwarded_for : Option String
  x_real_ip : Option String
  x_master_key : Option String
  remote_addr : String
  deriving DecidableEq

/-- Python truthiness of an optional header string: present and non-empty. -/
def truthy : Option String → Bool
  | none => false
  | some s => !(s = "")

/-- The part of a string before the first comma: `s.split(',')[0]`. -/
def firstCommaField (s : String) : String :=
  String.mk (s.data.takeWhile (fun c => !(c = ',')))

/-- Python `str.strip()`: drop leading and trailing whitespace. -/
def stripStr (s : String) : String :=
  String.mk (((s.data.dropWhile Char.isWhitespace).reverse.dropWhile
    Char.isWhitespace).reverse)

/-- `get_client_ip` (lines 266-272): X-Forwarded-For first element (stripped)
if that header is truthy, else X-Real-IP if truthy, else the peer address. -/
def get_client_ip (req : Request) : String :=
  if truthy req.x_forwarded_for = true then
    stripStr (firstCommaField (req.x_forwarded_for.getD ""))
  else if truthy req.x_real_ip = true then req.x_real_ip.getD ""
  else req.remote_addr

/-- `check_emergency_disable` (lines 300-305). -/
def check_emergency_disable (cfg : Config) : Bool :=
  cfg.enable_emergency_disable

/-- `check_ip_whitelist` (lines 308-319): an empty whitelist admits every
address; otherwise membership by string equality. -/
def check_ip_whitelist (cfg : Config) (client_ip : String) : Bool :=
  if cfg.ip_whitelist.isEmpty then true
  else cfg.ip_whitelist.contains client_ip

abbrev RateStore := List (String × List Time)

/-- `rate_limit_store[client_id]` read through `defaultdict(list)`. -/
def storeGet (store : RateStore) (client_id : String) : List Time :=
  (alistGet store client_id).getD []

/-- `check_rate_limit` (lines 322-346): prune the window to the trailing
hour, deny on either threshold, otherwise record `now`. -/
def check_rate_limit (cfg : Config) (client_id : String) (now : Time)
    (store : RateStore) : (Bool × Option String) × RateStore :=
  let minute_ago := now - 60
  let hour_ago := now - 3600
  let kept := (storeGet store client_id).filter (fun ts => ts > hour_ago)
  let store1 := alistSet store client_id kept
  let requests_last_minute := (kept.filter (fun ts => ts > minute_ago)).length
  let requests_last_hour := kept.length
  if requests_last_minute ≥ cfg.rate_limit_per_minute then
    ((false, some ("Rate limit exceeded: " ++ toString cfg.rate_limit_per_minute
      ++ " requests per minute")), store1)
  else if requests_last_hour ≥ cfg.rate_limit_per_hour then
    ((false, some ("Rate limit exceeded: " ++ toString cfg.rate_limit_per_hour
      ++ " requests per hour")), store1)
  else ((true, none), alistSet store1 client_id (kept ++ [now]))

/-- The key metadata returned by a successful `authenticate_request`: either
the synthetic ingress dictionary, a real `keys_db` record, or the synthetic
Home Assistant token dictionary (lines 362-367, 398-399, 404-410). -/
inductive AuthIdentity where
  | ingress (created_at : Time) (last_used : Time)
  | apiKey (key_data : KeyRecord)
  | haToken (created_at : Time) (last_used : Time)
  deriving DecidableEq

/-- The `name` entry of the returned key metadata, as read by
`security_middleware` (line 475). -/
def authName : AuthIdentity → String
  | .ingress _ _ => "Home Assistant Ingress"
  | .apiKey key_data => key_data.name
  | .haToken _ _ => "Home Assistant Token"

/-- Outcome of `authenticate_request`: `(True, None, key_data)` becomes
`ok`, `(False, msg, None)` becomes `fail msg`, and `exn` models the uncaught
exception when a deprecated record lacks `grace_until`. -/
inductive AuthResult where
  | ok (ident : AuthIdentity)
  | fail (msg : String)
  | exn
  deriving DecidableEq

/-- Bearer extraction (lines 370-375): `startswith('Bearer ')` then `[7:]`. -/
def bearer_token (auth_header : String) : Option String :=
  if "Bearer ".data <+: auth_header.data then
    some (String.mk (auth_header.data.drop 7))
  else none

/-- The tail of `authenticate_request` (lines 401-420): the Home Assistant
token strategy followed by the mode-specific failure messages.  `haValid`
models `validate_ha_token` (an outbound HTTP call). -/
def auth_fallthrough (haValid : String → Bool) (auth_mode : String)
    (provided_token : String) (now : Time) (db : KeysDb) : AuthResult × KeysDb :=
  if (auth_mode = "homeassistant" ∨ auth_mode = "both") ∧ haValid provided_token = true then
    (.ok (.haToken now now), db)
  else if auth_mode = "api_key" then (.fail "Invalid API key", db)
  else if auth_mode = "homeassistant" then (.fail "Invalid Home Assistant token", db)
  else (.fail "Invalid API key or Home Assistant token", db)

/-- `authenticate_request` (lines 349-420). -/
def authenticate_request (hashKey : String → String) (haValid : String → Bool)
    (cfg : Config) (req : Request) (db : KeysDb) (now : Time) :
    AuthResult × KeysDb :=
  if req.x_ingress_path.isSome then
    (.ok (.ingress now now), db)
  else
    match bearer_token (req.authorization.getD "") with
    | none => (.fail "Missing or invalid Authorization header", db)
    | some provided_token =>
      if cfg.auth_mode = "api_key" ∨ cfg.auth_mode = "both" then
        match find_key hashKey db now provided_token with
        | (some key_data, db1) =>
          if key_data.status = "revoked" then
            (.fail "API key has been revoked", db1)
          else if key_data.status = "deprecated" then
            match key_data.grace_until with
            | none => (.exn, db1)
            | some grace_until =>
              if now > grace_until then
                (.fail "API key has expired (past grace period)",
                 (revoke_key (hashKey provided_token) now db1).2)
              else (.ok (.apiKey key_data), db1)
          else (.ok (.apiKey key_data), db1)
        | (none, db1) => auth_fallthrough haValid cfg.auth_mode provided_token now db1
      else auth_fallthrough haValid cfg.auth_mode provided_token now db

/-- Outcome of `security_middleware` (lines 448-492); `allowed` means the
wrapped handler is invoked, everything else is an early rejection.
`serverError` models the uncaught exception bubbling out of
`authenticate_request`. -/
inductive Decision where
  | emergencyBlocked
  | ipBlocked
  | authFailed (msg : String)
  | rateLimited (msg : String)
  | allowed (ident : AuthIdentity)
  | serverError
  deriving DecidableEq

/-- HTTP status of each early rejection in `security_middleware`. -/
def decisionStatus : Decision → Option Nat
  | .emergencyBlocked => some 503
  | .ipBlocked => some 403
  | .authFailed _ => some 401
  | .rateLimited _ => some 429
  | .allowed _ => none
  | .serverError => some 500

/-- The `error` field of the JSON body of each early rejection. -/
def decisionError : Decision → Option String
  | .emergencyBlocked => some "Service temporarily disabled"
  | .ipBlocked => some "Access denied: IP not whitelisted"
  | .authFailed msg => some msg
  | .rateLimited msg => some msg
  | .allowed _ => none
  | .serverError => none

/-- Whether the wrapped protected operation runs. -/
def admits : Decision → Bool
  | .allowed _ => true
  | _ => false

/-- `security_middleware` (lines 448-492): emergency disable, then the IP
whitelist (skipped for ingress), then authentication, then rate limiting,
threading the key database and rate store through. -/
def security_middleware (hashKey : String → String) (haValid : String → Bool)
    (cfg : Config) (req : Request) (db : KeysDb) (store : RateStore)
    (now : Time) : Decision × KeysDb × RateStore :=
  let client_ip := get_client_ip req
  let from_ingress := req.x_ingress_path.isSome
  if check_emergency_disable cfg = true then (.emergencyBlocked, db, store)
  else if from_ingress = false ∧ check_ip_whitelist cfg client_ip = false then
    (.ipBlocked, db, store)
  else
    match authenticate_request hashKey haValid cfg req db now with
    | (.exn, db1) => (.serverError, db1, store)
    | (.fail msg, db1) => (.authFailed msg, db1, store)
    | (.ok ident, db1) =>
      let key_name := authName ident
      let client_id := client_ip ++ ":" ++ key_name
      match check_rate_limit cfg client_id now store with
      | ((false, rate_error), store1) =>
        (.rateLimited (rate_error.getD ""), db1, store1)
      | ((true, _), store1) => (.allowed ident, db1, store1)

/-- Outcome of the `management_auth` gate (lines 496-516): master key not
configured (503), wrong `X-Master-Key` header (403), or pass. -/
inductive MgmtGate where
  | noMaster
  | badKey
  | pass
  deriving DecidableEq

/-- `management_auth` (lines 496-516); `if not master_key` is Python
truthiness, so an absent or empty configured key yields 503. -/
def management_auth (cfg : Config) (req : Request) : MgmtGate :=
  match cfg.master_key with
  | none => .noMaster
  | some mk =>
    if mk = "" then .noMaster
    else if !(req.x_master_key.getD "" = mk) then .badKey
    else .pass

/-- Outcome of the `/manage/rotate-key` endpoint (lines 523-567). -/
inductive RotateResult where
  | noMasterKey
  | invalidMasterKey
  | badRequest
  | notFound
  | success (new_key : String) (new_key_hash : String) (old_key_hash : String)
      (old_key_deprecated_until : Option Time)
  deriving DecidableEq

/-- The `/manage/rotate-key` endpoint: the `management_auth` gate followed by
`rotate_key` (lines 523-567).  `new_key` stands for the fresh random secret
produced by `generate_api_key`; the request body supplies `old_key_hash` and
`grace_hours`. -/
def rotate_key_endpoint (hashKey : String → String) (cfg : Config)
    (req : Request) (db : KeysDb) (now : Time) (new_key : String)
    (old_key_hash : Option String) (grace_hours : Int) : RotateResult × KeysDb :=
  match management_auth cfg req with
  | .noMaster => (.noMasterKey, db)
  | .badKey => (.invalidMasterKey, db)
  | .pass =>
    if truthy old_key_hash = false then (.badRequest, db)
    else
      let oh := old_key_hash.getD ""
      match alistGet db oh with
      | none => (.notFound, db)
      | some old_key_data =>
        let db1 := (deprecate_key oh grace_hours now db).2
        let step := add_key hashKey db1 now new_key (old_key_data.name ++ " (rotated)")
          ("Rotated from " ++ oh ++ " on " ++ toString now)
        (.success new_key step.1.hash oh
          ((alistGet step.2 oh).bind (fun r => r.grace_until)), step.2)

/-- Outcome of one outbound HTTP call inside `auto_rotate_key`: a usable
response, a non-OK response with its body text, or a transport exception. -/
inductive HttpResult (α : Type) where
  | ok (value : α)
  | notOk (text : String)
  | exn (msg : String)
  deriving DecidableEq

/-- Whether the call did not yield a usable response. -/
def HttpResult.isFailure {α : Type} : HttpResult α → Bool
  | .ok _ => false
  | .notOk _ => true
  | .exn _ => true

/-- Outcome of the `/manage/auto-rotate` endpoint (lines 570-733). -/
inductive AutoRotateResult where
  | noMasterKey
  | invalidMasterKey
  | badRequest
  | notFound
  | serverError (error : String) (details : String)
  | success (new_key : String) (new_key_hash : String) (old_key_hash : String)
      (old_key_status : String) (grace_until : Option Time)
  deriving DecidableEq

/-- The `/manage/auto-rotate` endpoint (lines 570-733): gate, body checks,
generate, fetch the addon config (`fetchConfig` gives the `api_keys` list, or
`none` inside `ok` when the fetched config has no such entry), append the new
secret and write the config back (`writeConfig`, applied to the written key
list), and only then mutate the local database.  The background restart of
step 6 is a process-level side effect outside this model. -/
def auto_rotate_key (hashKey : String → String) (cfg : Config) (req : Request)
    (db : KeysDb) (now : Time) (old_key_hash : Option String)
    (grace_hours : Int) (new_key : String)
    (fetchConfig : HttpResult (Option (List String)))
    (writeConfig : List String → HttpResult Unit) : AutoRotateResult × KeysDb :=
  match management_auth cfg req with
  | .noMaster => (.noMasterKey, db)
  | .badKey => (.invalidMasterKey, db)
  | .pass =>
    if truthy old_key_hash = false then (.badRequest, db)
    else
      let oh := old_key_hash.getD ""
      match alistGet db oh with
      | none => (.notFound, db)
      | some old_key_data =>
        let new_key_hash := hashKey new_key
        match fetchConfig with
        | .notOk text =>
          (.serverError "Failed to read current addon configuration" text, db)
        | .exn msg => (.serverError "Failed to access Supervisor API" msg, db)
        | .ok current_api_keys =>
          let api_keys := current_api_keys.getD [] ++ [new_key]
          match writeConfig api_keys with
          | .notOk text =>
            (.serverError "Failed to update addon configuration" text, db)
          | .exn msg => (.serverError "Failed to write configuration" msg, db)
          | .ok _ =>
            let db1 := (add_key hashKey db now new_key
              (old_key_data.name ++ " (auto-rotated)")
              ("Auto-rotated from " ++ oh ++ " on " ++ toString now)).2
            let db2 :=
              if grace_hours > 0 then (deprecate_key oh grace_hours now db1).2
              else (revoke_key oh now db1).2
            (.success new_key new_key_hash oh
              (if grace_hours = 0 then "revoked" else "deprecated")
              (if grace_hours > 0 then (alistGet db2 oh).bind (fun r => r.grace_until)
               else none),
             db2)

/-- The per-record part of the reachable-state invariant: an active record
carries none of the lifecycle timestamps, a deprecated record carries a grace
deadline, a revoked record carries a revocation timestamp. -/
def RecInv (r : KeyRecord) : Prop :=
  (r.status = "active" →
    r.grace_until = none ∧ r.revoked_at = none ∧ r.deprecated_at = none)
  ∧ (r.status = "deprecated" → r.grace_until.isSome = true)
  ∧ (r.status = "revoked" → r.revoked_at.isSome = true)

/-- The database-wide invariant. -/
def DbInv (db : KeysDb) : Prop := ∀ p ∈ db, RecInv p.2

instance : DecidablePred RecInv := fun r => by unfold RecInv; infer_instance

instance : DecidablePred DbInv := fun db => by
  unfold DbInv; exact List.decidableBAll _ db

theorem alistGet_alistSet_self {α : Type} (l : List (String × α)) (k : String)
    (v : α) : alistGet (alistSet l k v) k = some v := by
  induction l with
  | nil => simp [alistGet, alistSet]
  | cons q rest ih =>
    obtain ⟨k0, v0⟩ := q
    by_cases h : k0 = k
    · simp [alistSet, alistGet, h]
    · simp [alistSet, alistGet, h, ih]

theorem alistGet_alistSet_ne {α : Type} (l : List (String × α)) {k k1 : String}
    (v : α) (hne : k ≠ k1) : alistGet (alistSet l k v) k1 = alistGet l k1 := by
  induction l with
  | nil => simp [alistGet, alistSet, hne]
  | cons q rest ih =>
    obtain ⟨k0, v0⟩ := q
    by_cases h : k0 = k
    · subst h
      simp [alistSet, alistGet, hne]
    · simp [alistSet, alistGet, h, ih]

theorem mem_alistSet {α : Type} {l : List (String × α)} {k : String} {v : α}
    {p : String × α} (hp : p ∈ alistSet l k v) : p = (k, v) ∨ p ∈ l := by
  induction l with
  | nil => simpa [alistSet] using hp
  | cons q rest ih =>
    obtain ⟨k0, v0⟩ := q
    simp only [alistSet] at hp
    by_cases h : k0 = k
    · rw [if_pos h] at hp
      rcases List.mem_cons.mp hp with h1 | h1
      · exact Or.inl h1
      · exact Or.inr (List.mem_cons_of_mem _ h1)
    · rw [if_neg h] at hp
      rcases List.mem_cons.mp hp with h1 | h1
      · exact Or.inr (List.mem_cons.mpr (Or.inl h1))
      · rcases ih h1 with h2 | h2
        · exact Or.inl h2
        · exact Or.inr (List.mem_cons_of_mem _ h2)

theorem alistGet_mem {α : Type} {l : List (String × α)} {k : String} {v : α}
    (h : alistGet l k = some v) : (k, v) ∈ l := by
  induction l with
  | nil => simp [alistGet] at h
  | cons q rest ih =>
    obtain ⟨k0, v0⟩ := q
    simp only [alistGet] at h
    by_cases hk : k0 = k
    · subst hk
      rw [if_pos rfl] at h
      injection h with h2
      subst h2
      exact List.mem_cons_self _ _
    · rw [if_neg hk] at h
      exact List.mem_cons_of_mem _ (ih h)

/-- Claim C1: with the emergency-disable flag set in the configuration,
`security_middleware` rejects every inbound request with the 503 kill-switch
response before anything else runs: the key database and the rate windows are
returned untouched, whatever ingress marker, bearer credential or source
address the request carries. -/
theorem emergency_disable_dominates (hashKey : String → String)
    (haValid : String → Bool) (cfg : Config) (req : Request) (db : KeysDb)
    (store : RateStore) (now : Time)
    (hkill : cfg.enable_emergency_disable = true) :
    security_middleware hashKey haValid cfg req db store now =
      (.emergencyBlocked, db, store)
    ∧ decisionStatus .emergencyBlocked = some 503
    ∧ decisionError .emergencyBlocked = some "Service temporarily disabled" := by
  refine ⟨?_, rfl, rfl⟩
  simp [security_middleware, check_emergency_disable, hkill]

theorem emergency_disable_dominates_witness :
    (Config.mk true ["1.2.3.4"] 30 500 "api_key" (some "mk") []).enable_emergency_disable = true
    ∧ security_middleware (fun s => s) (fun _ => true)
        (Config.mk true ["1.2.3.4"] 30 500 "api_key" (some "mk") [])
        (Request.mk (some "/ing") none (some "Bearer k") none none none "1.2.3.4")
        [("k", KeyRecord.mk "k" "n" "" 0 none "active" 0 none none none)] [] 0 =
        (.emergencyBlocked,
         [("k", KeyRecord.mk "k" "n" "" 0 none "active" 0 none none none)], []) :=
  ⟨rfl,
   (emergency_disable_dominates (fun s => s) (fun _ => true)
     (Config.mk true ["1.2.3.4"] 30 500 "api_key" (some "mk") [])
     (Request.mk (some "/ing") none (some "Bearer k") none none none "1.2.3.4")
     [("k", KeyRecord.mk "k" "n" "" 0 none "active" 0 none none none)] [] 0 rfl).1⟩

/-- Claim C4: an authentication attempt bearing a secret whose record is
deprecated with `grace_until` in the past is rejected with the expired-grace
message, and that very attempt revokes the record (its status becomes
`revoked` with `revoked_at = now`) without waiting for the sweep; a
deprecated record whose `grace_until` has not passed authenticates
successfully, returning the usage-updated record. -/
theorem deprecated_key_grace_enforced_at_use (hashKey : String → String)
    (haValid : String → Bool) (cfg : Config) (req : Request) (db : KeysDb)
    (now g : Time) (tok : String) (kd : KeyRecord)
    (hing : req.x_ingress_path = none)
    (hbear : bearer_token (req.authorization.getD "") = some tok)
    (hmode : cfg.auth_mode = "api_key" ∨ cfg.auth_mode = "both")
    (hfind : alistGet db (hashKey tok) = some kd)
    (hdep : kd.status = "deprecated")
    (hgrace : kd.grace_until = some g) :
    (now > g →
      authenticate_request hashKey haValid cfg req db now =
        (.fail "API key has expired (past grace period)",
         alistSet (alistSet db (hashKey tok) (touchRecord kd now)) (hashKey tok)
           (revokeRecord (touchRecord kd now) now)))
    ∧ (¬ now > g →
      authenticate_request hashKey haValid cfg req db now =
        (.ok (.apiKey (touchRecord kd now)),
         alistSet db (hashKey tok) (touchRecord kd now))) := by
  have hingress : req.x_ingress_path.isSome = false := by simp [hing]
  constructor
  · intro hpast
    simp only [authenticate_request, hingress, Bool.false_eq_true, if_false, hbear,
      if_pos hmode, find_key, hfind]
    simp only [touchRecord_status, touchRecord_grace_until, hdep, hgrace]
    simp only [if_pos hpast, revoke_key, alistGet_alistSet_self]
    simp [hdep]
  · intro hok
    simp only [authenticate_request, hingress, Bool.false_eq_true, if_false, hbear,
      if_pos hmode, find_key, hfind]
    simp only [touchRecord_status, touchRecord_grace_until, hdep, hgrace]
    simp [if_neg hok]

theorem deprecated_key_grace_enforced_at_use_witness :
    ((100 : Time) > 10
      ∧ authenticate_request (fun s => s) (fun _ => false)
          (Config.mk false [] 30 500 "api_key" none [])
          (Request.mk none none (some "Bearer k") none none none "1.1.1.1")
          [("k", KeyRecord.mk "k" "n" "" 0 none "deprecated" 0 (some 0) (some 10) none)]
          100 =
        (.fail "API key has expired (past grace period)",
         [("k", KeyRecord.mk "k" "n" "" 0 (some 100) "revoked" 1 (some 0) (some 10)
            (some 100))]))
    ∧ (¬ (5 : Time) > 10
      ∧ authenticate_request (fun s => s) (fun _ => false)
          (Config.mk false [] 30 500 "api_key" none [])
          (Request.mk none none (some "Bearer k") none none none "1.1.1.1")
          [("k", KeyRecord.mk "k" "n" "" 0 none "deprecated" 0 (some 0) (some 10) none)]
          5 =
        (.ok (.apiKey (KeyRecord.mk "k" "n" "" 0 (some 5) "deprecated" 1 (some 0)
            (some 10) none)),
         [("k", KeyRecord.mk "k" "n" "" 0 (some 5) "deprecated" 1 (some 0) (some 10)
            none)])) := by
  constructor
  · refine ⟨by decide, ?_⟩
    have h := (deprecated_key_grace_enforced_at_use (fun s => s) (fun _ => false)
      (Config.mk false [] 30 500 "api_key" none [])
      (Request.mk none none (some "Bearer k") none none none "1.1.1.1")
      [("k", KeyRecord.mk "k" "n" "" 0 none "deprecated" 0 (some 0) (some 10) none)]
      100 10 "k"
      (KeyRecord.mk "k" "n" "" 0 none "deprecated" 0 (some 0) (some 10) none)
      rfl (by decide) (Or.inl rfl) (by decide) rfl rfl).1 (by decide)
    exact h.trans (by decide)
  · refine ⟨by decide, ?_⟩
    have h := (deprecated_key_grace_enforced_at_use (fun s => s) (fun _ => false)
      (Config.mk false [] 30 500 "api_key" none [])
      (Request.mk none none (some "Bearer k") none none none "1.1.1.1")
      [("k", KeyRecord.mk "k" "n" "" 0 none "deprecated" 0 (some 0) (some 10) none)]
      5 10 "k"
      (KeyRecord.mk "k" "n" "" 0 none "deprecated" 0 (some 0) (some 10) none)
      rfl (by decide) (Or.inl rfl) (by decide) rfl rfl).2 (by decide)
    exact h.trans (by decide)

/-- Claim C3: if the auto-rotation workflow fails to read the external addon
configuration or to write it back (non-OK response or transport error), the
endpoint returns a 500 error response and the key database is left exactly as
it was, so no record for the newly generated secret is created and every
field of the old record is untouched. -/
theorem auto_rotate_external_failure_is_atomic (hashKey : String → String)
    (cfg : Config) (req : Request) (db : KeysDb) (now : Time)
    (old_key_hash : Option String) (grace_hours : Int) (new_key : String)
    (fetchConfig : HttpResult (Option (List String)))
    (writeConfig : List String → HttpResult Unit)
    (hfail : fetchConfig.isFailure = true
      ∨ ∀ p, (writeConfig p).isFailure = true) :
    (auto_rotate_key hashKey cfg req db now old_key_hash grace_hours new_key
        fetchConfig writeConfig).2 = db
    ∧ (management_auth cfg req = .pass → truthy old_key_hash = true →
       (alistGet db (old_key_hash.getD "")).isSome = true →
       ∃ e d, (auto_rotate_key hashKey cfg req db now old_key_hash grace_hours
          new_key fetchConfig writeConfig).1 = .serverError e d) := by
  cases hm : management_auth cfg req with
  | noMaster =>
    refine ⟨by simp [auto_rotate_key, hm], ?_⟩
    intro hpass
    simp at hpass
  | badKey =>
    refine ⟨by simp [auto_rotate_key, hm], ?_⟩
    intro hpass
    simp at hpass
  | pass =>
    cases ht : truthy old_key_hash with
    | false =>
      refine ⟨by simp [auto_rotate_key, hm, ht], ?_⟩
      intro _ htr
      simp at htr
    | true =>
      cases hl : alistGet db (old_key_hash.getD "") with
      | none =>
        refine ⟨by simp [auto_rotate_key, hm, ht, hl], ?_⟩
        intro _ _ hsome
        simp at hsome
      | some old_kd =>
        cases hf : fetchConfig with
        | notOk t =>
          refine ⟨by simp [auto_rotate_key, hm, ht, hl, hf], ?_⟩
          intro _ _ _
          exact ⟨"Failed to read current addon configuration", t,
            by simp [auto_rotate_key, hm, ht, hl, hf]⟩
        | exn m =>
          refine ⟨by simp [auto_rotate_key, hm, ht, hl, hf], ?_⟩
          intro _ _ _
          exact ⟨"Failed to access Supervisor API", m,
            by simp [auto_rotate_key, hm, ht, hl, hf]⟩
        | ok val =>
          have hw : ∀ p, (writeConfig p).isFailure = true := by
            rcases hfail with hfa | hfa
            · rw [hf] at hfa
              simp [HttpResult.isFailure] at hfa
            · exact hfa
          cases hwc : writeConfig (val.getD [] ++ [new_key]) with
          | ok u =>
            have hcontra := hw (val.getD [] ++ [new_key])
            rw [hwc] at hcontra
            simp [HttpResult.isFailure] at hcontra
          | notOk t =>
            refine ⟨by simp [auto_rotate_key, hm, ht, hl, hf, hwc], ?_⟩
            intro _ _ _
            exact ⟨"Failed to update addon configuration", t,
              by simp [auto_rotate_key, hm, ht, hl, hf, hwc]⟩
          | exn m =>
            refine ⟨by simp [auto_rotate_key, hm, ht, hl, hf, hwc], ?_⟩
            intro _ _ _
            exact ⟨"Failed to write configuration", m,
              by simp [auto_rotate_key, hm, ht, hl, hf, hwc]⟩

theorem auto_rotate_external_failure_is_atomic_witness :
    (HttpResult.notOk "boom" : HttpResult (Option (List String))).isFailure = true
    ∧ (auto_rotate_key (fun s => s)
        (Config.mk false [] 30 500 "api_key" (some "mk") [])
        (Request.mk none none none none none (some "mk") "1.1.1.1")
        [("old", KeyRecord.mk "old" "n" "" 0 none "active" 0 none none none)]
        0 (some "old") 24 "nk" (.notOk "boom") (fun _ => .ok ())).2 =
      [("old", KeyRecord.mk "old" "n" "" 0 none "active" 0 none none none)]
    ∧ ∃ e d, (auto_rotate_key (fun s => s)
        (Config.mk false [] 30 500 "api_key" (some "mk") [])
        (Request.mk none none none none none (some "mk") "1.1.1.1")
        [("old", KeyRecord.mk "old" "n" "" 0 none "active" 0 none none none)]
        0 (some "old") 24 "nk" (.notOk "boom") (fun _ => .ok ())).1 =
      .serverError e d := by
  have h := auto_rotate_external_failure_is_atomic (fun s => s)
    (Config.mk false [] 30 500 "api_key" (some "mk") [])
    (Request.mk none none none none none (some "mk") "1.1.1.1")
    [("old", KeyRecord.mk "old" "n" "" 0 none "active" 0 none none none)]
    0 (some "old") 24 "nk" (.notOk "boom") (fun _ => .ok ()) (Or.inl rfl)
  exact ⟨rfl, h.1, h.2 (by decide) (by decide) (by decide)⟩

/-- Claim C8: each rate-limit check first prunes the identity's window to the
trailing hour, then denies exactly when the pruned window holds at least
`rate_limit_per_minute` entries newer than one minute or at least
`rate_limit_per_hour` entries in total; a denied check stores only the pruned
window, adding no timestamp, while an admitted check appends `now`; with a
per-minute threshold of 5, the sixth request within 60 seconds from one
identity is denied. -/
theorem rate_limit_sliding_window (cfg : Config) (client_id : String)
    (now : Time) (store : RateStore) :
    ((check_rate_limit cfg client_id now store).1.1 = false ↔
      (((storeGet store client_id).filter (fun ts => ts > now - 3600)).filter
          (fun ts => ts > now - 60)).length ≥ cfg.rate_limit_per_minute
      ∨ ((storeGet store client_id).filter (fun ts => ts > now - 3600)).length ≥
          cfg.rate_limit_per_hour)
    ∧ ((check_rate_limit cfg client_id now store).1.1 = false →
      (check_rate_limit cfg client_id now store).2 =
        alistSet store client_id
          ((storeGet store client_id).filter (fun ts => ts > now - 3600)))
    ∧ ((check_rate_limit cfg client_id now store).1.1 = true →
      (check_rate_limit cfg client_id now store).2 =
        alistSet
          (alistSet store client_id
            ((storeGet store client_id).filter (fun ts => ts > now - 3600)))
          client_id
          ((storeGet store client_id).filter (fun ts => ts > now - 3600) ++ [now]))
    ∧ (let cfg5 : Config := Config.mk false [] 5 500 "api_key" none []
       let s1 := (check_rate_limit cfg5 "c" 0 []).2
       let s2 := (check_rate_limit cfg5 "c" 10 s1).2
       let s3 := (check_rate_limit cfg5 "c" 20 s2).2
       let s4 := (check_rate_limit cfg5 "c" 30 s3).2
       let s5 := (check_rate_limit cfg5 "c" 40 s4).2
       (check_rate_limit cfg5 "c" 0 []).1.1 = true
       ∧ (check_rate_limit cfg5 "c" 10 s1).1.1 = true
       ∧ (check_rate_limit cfg5 "c" 20 s2).1.1 = true
       ∧ (check_rate_limit cfg5 "c" 30 s3).1.1 = true
       ∧ (check_rate_limit cfg5 "c" 40 s4).1.1 = true
       ∧ (check_rate_limit cfg5 "c" 50 s5).1.1 = false) := by
  refine ⟨?_, ?_, ?_, by decide⟩
  · simp only [check_rate_limit]
    split_ifs with h1 h2
    · exact iff_of_true rfl (Or.inl h1)
    · exact iff_of_true rfl (Or.inr h2)
    · exact iff_of_false (by simp) (not_or.mpr ⟨h1, h2⟩)
  · simp only [check_rate_limit]
    split_ifs with h1 h2
    · intro _
      rfl
    · intro _
      rfl
    · intro hcon
      exact absurd hcon (by simp)
  · simp only [check_rate_limit]
    split_ifs with h1 h2
    · intro hcon
      exact absurd hcon (by simp)
    · intro hcon
      exact absurd hcon (by simp)
    · intro _
      rfl

theorem rate_limit_sliding_window_witness :
    ((check_rate_limit (Config.mk false [] 5 500 "api_key" none []) "c" 50
        [("c", [0, 10, 20, 30, 40])]).1.1 = false
      ∧ (check_rate_limit (Config.mk false [] 5 500 "api_key" none []) "c" 50
        [("c", [0, 10, 20, 30, 40])]).2 = [("c", [0, 10, 20, 30, 40])])
    ∧ ((check_rate_limit (Config.mk false [] 5 500 "api_key" none []) "c" 40
        [("c", [0, 10, 20, 30])]).1.1 = true
      ∧ (check_rate_limit (Config.mk false [] 5 500 "api_key" none []) "c" 40
        [("c", [0, 10, 20, 30])]).2 = [("c", [0, 10, 20, 30, 40])]) := by
  constructor
  · have h := rate_limit_sliding_window (Config.mk false [] 5 500 "api_key" none [])
      "c" 50 [("c", [0, 10, 20, 30, 40])]
    have hd : (check_rate_limit (Config.mk false [] 5 500 "api_key" none []) "c" 50
        [("c", [0, 10, 20, 30, 40])]).1.1 = false := h.1.mpr (by decide)
    refine ⟨hd, (h.2.1 hd).trans (by decide)⟩
  · have h := rate_limit_sliding_window (Config.mk false [] 5 500 "api_key" none [])
      "c" 40 [("c", [0, 10, 20, 30])]
    have ha : (check_rate_limit (Config.mk false [] 5 500 "api_key" none []) "c" 40
        [("c", [0, 10, 20, 30])]).1.1 = true := by
      rcases hb : (check_rate_limit (Config.mk false [] 5 500 "api_key" none []) "c" 40
        [("c", [0, 10, 20, 30])]).1.1 with _ | _
      · exact absurd (h.1.mp hb) (by decide)
      · rfl
    refine ⟨ha, (h.2.2.1 ha).trans (by decide)⟩

/-- Claim C9: a request carrying the trusted-ingress marker authenticates
unconditionally with the synthetic ingress identity — no key lookup and no
upstream token validation happen, since the outcome and the returned database
are the same for every `hashKey` and `haValid` and the database is unchanged
— and the whitelist check is skipped, while the kill-switch still blocks such
requests; a request without the marker is checked against a configured
non-empty whitelist and rejected with 403 when its resolved address is absent
from it. -/
theorem ingress_passthrough_and_whitelist (hashKey : String → String)
    (haValid : String → Bool) (cfg : Config) (req : Request) (db : KeysDb)
    (store : RateStore) (now : Time) :
    (req.x_ingress_path.isSome = true →
      authenticate_request hashKey haValid cfg req db now =
        (.ok (.ingress now now), db))
    ∧ (req.x_ingress_path.isSome = true → cfg.enable_emergency_disable = true →
      (security_middleware hashKey haValid cfg req db store now).1 =
        .emergencyBlocked)
    ∧ (req.x_ingress_path.isSome = true →
      (security_middleware hashKey haValid cfg req db store now).1 ≠ .ipBlocked)
    ∧ (cfg.enable_emergency_disable = false → req.x_ingress_path = none →
      cfg.ip_whitelist ≠ [] →
      cfg.ip_whitelist.contains (get_client_ip req) = false →
      security_middleware hashKey haValid cfg req db store now =
        (.ipBlocked, db, store) ∧ decisionStatus .ipBlocked = some 403) := by
  refine ⟨?_, ?_, ?_, ?_⟩
  · intro hi
    simp [authenticate_request, hi]
  · intro _ hkill
    simp [security_middleware, check_emergency_disable, hkill]
  · intro hi
    by_cases hkill : cfg.enable_emergency_disable = true
    · simp [security_middleware, check_emergency_disable, hkill]
    · simp only [security_middleware, check_emergency_disable, hi,
        authenticate_request]
      have hk : cfg.enable_emergency_disable = false := by
        cases hc : cfg.enable_emergency_disable
        · rfl
        · exact absurd hc hkill
      rw [hk]
      simp only [Bool.false_eq_true, if_false, true_and]
      rcases hr : check_rate_limit cfg
          (get_client_ip req ++ ":" ++ authName (.ingress now now)) now store
        with ⟨⟨b, e⟩, store1⟩
      cases b <;> simp [hr]
  · intro hkill hing hne hcontains
    have hi : req.x_ingress_path.isSome = false := by simp [hing]
    have hempty : cfg.ip_whitelist.isEmpty = false := by
      cases hw : cfg.ip_whitelist
      · exact absurd hw hne
      · rfl
    have hmem : get_client_ip req ∉ cfg.ip_whitelist := by simpa using hcontains
    refine ⟨?_, rfl⟩
    simp [security_middleware, check_emergency_disable, hkill, hi,
      check_ip_whitelist, hempty, hmem]

theorem ingress_passthrough_and_whitelist_witness :
    authenticate_request (fun s => s) (fun _ => true)
      (Config.mk false ["1.2.3.4"] 30 500 "api_key" none [])
      (Request.mk (some "/ing") none none none none none "5.6.7.8")
      [] 7 = (.ok (.ingress 7 7), [])
    ∧ (security_middleware (fun s => s) (fun _ => true)
        (Config.mk true ["1.2.3.4"] 30 500 "api_key" none [])
        (Request.mk (some "/ing") none none none none none "5.6.7.8")
        [] [] 7).1 = .emergencyBlocked
    ∧ (security_middleware (fun s => s) (fun _ => true)
        (Config.mk false ["1.2.3.4"] 30 500 "api_key" none [])
        (Request.mk (some "/ing") none none none none none "5.6.7.8")
        [] [] 7).1 ≠ .ipBlocked
    ∧ security_middleware (fun s => s) (fun _ => true)
        (Config.mk false ["1.2.3.4"] 30 500 "api_key" none [])
        (Request.mk none none none none none none "5.6.7.8")
        [] [] 7 = (.ipBlocked, [], []) := by
  refine ⟨?_, ?_, ?_, ?_⟩
  · exact (ingress_passthrough_and_whitelist (fun s => s) (fun _ => true)
      (Config.mk false ["1.2.3.4"] 30 500 "api_key" none [])
      (Request.mk (some "/ing") none none none none none "5.6.7.8")
      [] [] 7).1 rfl
  · exact (ingress_passthrough_and_whitelist (fun s => s) (fun _ => true)
      (Config.mk true ["1.2.3.4"] 30 500 "api_key" none [])
      (Request.mk (some "/ing") none none none none none "5.6.7.8")
      [] [] 7).2.1 rfl rfl
  · exact (ingress_passthrough_and_whitelist (fun s => s) (fun _ => true)
      (Config.mk false ["1.2.3.4"] 30 500 "api_key" none [])
      (Request.mk (some "/ing") none none none none none "5.6.7.8")
      [] [] 7).2.2.1 rfl
  · exact ((ingress_passthrough_and_whitelist (fun s => s) (fun _ => true)
      (Config.mk false ["1.2.3.4"] 30 500 "api_key" none [])
      (Request.mk none none none none none none "5.6.7.8")
      [] [] 7).2.2.2 rfl rfl (by decide) (by decide)).1

/-- Claim C2 counterexample: with the emergency-disable flag set, a
rotate-key request carrying the configured master key still executes — it
returns success and deprecates the old record, so a management mutation runs
while the kill-switch is active, refuting the claim that every protected
operation sits behind the admission pipeline. -/
theorem management_mutation_runs_under_kill_switch :
    (Config.mk true [] 30 500 "api_key" (some "mk") []).enable_emergency_disable
      = true
    ∧ (rotate_key_endpoint (fun s => s)
        (Config.mk true [] 30 500 "api_key" (some "mk") [])
        (Request.mk none none none none none (some "mk") "1.1.1.1")
        [("old", KeyRecord.mk "old" "n" "" 0 none "active" 0 none none none)]
        0 "nk" (some "old") 24).1 = .success "nk" "nk" "old" (some 86400)
    ∧ alistGet (rotate_key_endpoint (fun s => s)
        (Config.mk true [] 30 500 "api_key" (some "mk") [])
        (Request.mk none none none none none (some "mk") "1.1.1.1")
        [("old", KeyRecord.mk "old" "n" "" 0 none "active" 0 none none none)]
        0 "nk" (some "old") 24).2 "old" =
      some (KeyRecord.mk "old" "n" "" 0 none "deprecated" 0 (some 0) (some 86400)
        none) :=
  ⟨rfl, by decide, by decide⟩

/-- Claim C2 amended: operations wrapped in `security_middleware` run only
when the pipeline admits them — never while emergency-disable is set — but
the management mutations are guarded only by the master-key gate: whenever
`management_auth` passes, `rotate_key` executes, deprecating the old record
and storing a new one, regardless of the emergency-disable flag. -/
theorem admission_gate_scope (hashKey : String → String)
    (haValid : String → Bool) (cfg : Config) (req : Request) (db : KeysDb)
    (store : RateStore) (now : Time) (new_key oh : String) (grace_hours : Int)
    (kd : KeyRecord) :
    (cfg.enable_emergency_disable = true →
      admits (security_middleware hashKey haValid cfg req db store now).1 = false)
    ∧ (management_auth cfg req = .pass → oh ≠ "" → alistGet db oh = some kd →
      hashKey new_key ≠ oh →
      (rotate_key_endpoint hashKey cfg req db now new_key (some oh)
          grace_hours).1 =
        .success new_key (hashKey new_key) oh (some (now + grace_hours * 3600))
      ∧ alistGet (rotate_key_endpoint hashKey cfg req db now new_key (some oh)
          grace_hours).2 oh = some (deprecateRecord kd grace_hours now)) := by
  constructor
  · intro h
    simp [security_middleware, check_emergency_disable, h, admits]
  · intro hpass hne hget hhash
    have ht : truthy (some oh) = true := by
      simp [truthy]
      exact hne
    simp only [rotate_key_endpoint, hpass, ht, Bool.true_eq_false, if_false,
      Option.getD_some, hget, deprecate_key, add_key]
    constructor
    · simp [alistGet_alistSet_ne _ _ hhash, alistGet_alistSet_self]
    · simp [alistGet_alistSet_ne _ _ hhash, alistGet_alistSet_self]

theorem admission_gate_scope_witness :
    admits (security_middleware (fun s => s) (fun _ => true)
      (Config.mk true [] 30 500 "api_key" (some "mk") [])
      (Request.mk none none none none none (some "mk") "1.1.1.1")
      [] [] 0).1 = false
    ∧ (rotate_key_endpoint (fun s => s)
        (Config.mk false [] 30 500 "api_key" (some "mk") [])
        (Request.mk none none none none none (some "mk") "1.1.1.1")
        [("old", KeyRecord.mk "old" "n" "" 0 none "active" 0 none none none)]
        0 "nk" (some "old") 24).1 = .success "nk" "nk" "old" (some 86400) := by
  constructor
  · exact (admission_gate_scope (fun s => s) (fun _ => true)
      (Config.mk true [] 30 500 "api_key" (some "mk") [])
      (Request.mk none none none none none (some "mk") "1.1.1.1")
      [] [] 0 "nk" "old" 24
      (KeyRecord.mk "old" "n" "" 0 none "active" 0 none none none)).1 rfl
  · have h := ((admission_gate_scope (fun s => s) (fun _ => true)
      (Config.mk false [] 30 500 "api_key" (some "mk") [])
      (Request.mk none none none none none (some "mk") "1.1.1.1")
      [("old", KeyRecord.mk "old" "n" "" 0 none "active" 0 none none none)]
      [] 0 "nk" "old" 24
      (KeyRecord.mk "old" "n" "" 0 none "active" 0 none none none)).2
      (by decide) (by decide) (by decide) (by decide)).1
    exact h.trans (by decide)

/-- Claim C6 counterexample: on an already-revoked record, `deprecate_key`
does not leave it unchanged — it resurrects it to deprecated with a fresh
grace window — and `revoke_key` refreshes `revoked_at`, so revoked is not
terminal in the claimed sense. -/
theorem revoked_status_not_terminal :
    (deprecate_key "h" 24 10
        [("h", KeyRecord.mk "h" "n" "" 0 none "revoked" 0 none none (some 3))]).2 =
      [("h", KeyRecord.mk "h" "n" "" 0 none "deprecated" 0 (some 10) (some 86410)
        (some 3))]
    ∧ (revoke_key "h" 10
        [("h", KeyRecord.mk "h" "n" "" 0 none "revoked" 0 none none (some 3))]).2 =
      [("h", KeyRecord.mk "h" "n" "" 0 none "revoked" 0 none none (some 10))]
    ∧ ("deprecated" : String) ≠ "revoked"
    ∧ (some (3 : Time)) ≠ some 10 := by
  refine ⟨by decide, by decide, by decide, by decide⟩

/-- Claim C6 amended: `revoke_key` always yields status revoked but stamps a
fresh `revoked_at` on every call, including on an already-revoked hash, and
`deprecate_key` transitions any existing record — active, deprecated or
revoked alike — to deprecated with a fresh grace window; neither operation is
a no-op on a revoked record. -/
theorem revoke_and_deprecate_unconditional (db : KeysDb) (h : String)
    (kd : KeyRecord) (grace_hours : Int) (now : Time)
    (hget : alistGet db h = some kd) :
    deprecate_key h grace_hours now db =
      (true, alistSet db h (deprecateRecord kd grace_hours now))
    ∧ revoke_key h now db = (true, alistSet db h (revokeRecord kd now))
    ∧ (deprecateRecord kd grace_hours now).status = "deprecated"
    ∧ (deprecateRecord kd grace_hours now).grace_until =
        some (now + grace_hours * 3600)
    ∧ (revokeRecord kd now).status = "revoked"
    ∧ (revokeRecord kd now).revoked_at = some now := by
  refine ⟨?_, ?_, rfl, rfl, rfl, rfl⟩
  · simp [deprecate_key, hget]
  · simp [revoke_key, hget]

theorem revoke_and_deprecate_unconditional_witness :
    alistGet [("h", KeyRecord.mk "h" "n" "" 0 none "revoked" 0 none none (some 3))]
      "h" = some (KeyRecord.mk "h" "n" "" 0 none "revoked" 0 none none (some 3))
    ∧ deprecate_key "h" 24 10
        [("h", KeyRecord.mk "h" "n" "" 0 none "revoked" 0 none none (some 3))] =
      (true, [("h", KeyRecord.mk "h" "n" "" 0 none "deprecated" 0 (some 10)
        (some 86410) (some 3))]) := by
  constructor
  · decide
  · have h := (revoke_and_deprecate_unconditional
      [("h", KeyRecord.mk "h" "n" "" 0 none "revoked" 0 none none (some 3))]
      "h" (KeyRecord.mk "h" "n" "" 0 none "revoked" 0 none none (some 3))
      24 10 (by decide)).1
    exact h.trans (by decide)

theorem cleanup_mem_of_mem (now : Time) :
    ∀ {db db' : KeysDb}, cleanup_expired_keys now db = some db' →
    ∀ {p : String × KeyRecord}, p ∈ db →
    ∃ q, q ∈ db' ∧ q.1 = p.1 ∧ cleanupRecord now p.2 = some q.2 := by
  intro db
  induction db with
  | nil =>
    intro db' h p hp
    simp at hp
  | cons x rest ih =>
    intro db' h p hp
    obtain ⟨xh, xd⟩ := x
    simp only [cleanup_expired_keys] at h
    cases hcr : cleanupRecord now xd with
    | none =>
      rw [hcr] at h
      simp at h
    | some xd1 =>
      cases hrest : cleanup_expired_keys now rest with
      | none =>
        rw [hcr, hrest] at h
        simp at h
      | some rest1 =>
        rw [hcr, hrest] at h
        simp only [Option.some.injEq] at h
        subst h
        rcases List.mem_cons.mp hp with h2 | h2
        · subst h2
          exact ⟨(xh, xd1), List.mem_cons_self _ _, rfl, hcr⟩
        · obtain ⟨q, hq, hq1, hq2⟩ := ih hrest h2
          exact ⟨q, List.mem_cons_of_mem _ hq, hq1, hq2⟩

theorem cleanup_mem_rev (now : Time) :
    ∀ {db db' : KeysDb}, cleanup_expired_keys now db = some db' →
    ∀ {q : String × KeyRecord}, q ∈ db' →
    ∃ p, p ∈ db ∧ cleanupRecord now p.2 = some q.2 := by
  intro db
  induction db with
  | nil =>
    intro db' h q hq
    simp only [cleanup_expired_keys, Option.some.injEq] at h
    subst h
    simp at hq
  | cons x rest ih =>
    intro db' h q hq
    obtain ⟨xh, xd⟩ := x
    simp only [cleanup_expired_keys] at h
    cases hcr : cleanupRecord now xd with
    | none =>
      rw [hcr] at h
      simp at h
    | some xd1 =>
      cases hrest : cleanup_expired_keys now rest with
      | none =>
        rw [hcr, hrest] at h
        simp at h
      | some rest1 =>
        rw [hcr, hrest] at h
        simp only [Option.some.injEq] at h
        subst h
        rcases List.mem_cons.mp hq with h2 | h2
        · subst h2
          exact ⟨(xh, xd), List.mem_cons_self _ _, hcr⟩
        · obtain ⟨p, hp, hp2⟩ := ih hrest h2
          exact ⟨p, List.mem_cons_of_mem _ hp, hp2⟩

theorem recInv_touchRecord {kd : KeyRecord} (now : Time) (hr : RecInv kd) :
    RecInv (touchRecord kd now) := by
  simp only [RecInv, touchRecord_status, touchRecord_grace_until,
    touchRecord_revoked_at, touchRecord_deprecated_at]
  exact hr

theorem recInv_revokeRecord (kd : KeyRecord) (now : Time) :
    RecInv (revokeRecord kd now) := by
  refine ⟨?_, ?_, ?_⟩
  · intro h
    rw [revokeRecord_status] at h
    exact absurd h (by decide)
  · intro h
    rw [revokeRecord_status] at h
    exact absurd h (by decide)
  · intro _
    rw [revokeRecord_revoked_at]
    rfl

theorem recInv_deprecateRecord (kd : KeyRecord) (g : Int) (now : Time) :
    RecInv (deprecateRecord kd g now) := by
  refine ⟨?_, ?_, ?_⟩
  · intro h
    rw [deprecateRecord_status] at h
    exact absurd h (by decide)
  · intro _
    rw [deprecateRecord_grace_until]
    rfl
  · intro h
    rw [deprecateRecord_status] at h
    exact absurd h (by decide)

theorem recInv_cleanupRecord {now : Time} {r r1 : KeyRecord} (hr : RecInv r)
    (h : cleanupRecord now r = some r1) : RecInv r1 := by
  unfold cleanupRecord at h
  by_cases hs : r.status = "deprecated"
  · rw [if_pos hs] at h
    cases hg : r.grace_until with
    | none =>
      rw [hg] at h
      simp at h
    | some g =>
      rw [hg] at h
      have h3 : (if now > g then some (revokeRecord r now) else some r) = some r1 := h
      by_cases hp : now > g
      · rw [if_pos hp] at h3
        injection h3 with h2
        subst h2
        exact recInv_revokeRecord r now
      · rw [if_neg hp] at h3
        injection h3 with h2
        subst h2
        exact hr
  · rw [if_neg hs] at h
    injection h with h2
    subst h2
    exact hr

theorem dbInv_alistSet {db : KeysDb} {h : String} {r : KeyRecord}
    (hdb : DbInv db) (hr : RecInv r) : DbInv (alistSet db h r) := by
  intro p hp
  rcases mem_alistSet hp with h1 | h1
  · rw [h1]
    exact hr
  · exact hdb p h1

theorem dbInv_migrate_fold (hashKey : String → String) (now : Time) :
    ∀ (l : List (Nat × String)) (db : KeysDb), DbInv db →
    DbInv (l.foldl (fun acc ik =>
      if (alistGet acc (hashKey ik.2)).isSome then acc
      else (add_key hashKey acc now ik.2 ("Migrated Key " ++ toString (ik.1 + 1))
        "Auto-migrated from legacy config").2) db) := by
  intro l
  induction l with
  | nil =>
    intro db hdb
    simpa using hdb
  | cons x rest ih =>
    intro db hdb
    simp only [List.foldl_cons]
    apply ih
    by_cases hx : (alistGet db (hashKey x.2)).isSome = true
    · simpa [hx] using hdb
    · simp only [hx, Bool.false_eq_true, if_false, add_key]
      refine dbInv_alistSet hdb ?_
      refine ⟨?_, ?_, ?_⟩
      · intro _
        exact ⟨rfl, rfl, rfl⟩
      · intro hcon
        have hlit : ("active" : String) = "deprecated" := hcon
        exact absurd hlit (by decide)
      · intro hcon
        have hlit : ("active" : String) = "revoked" := hcon
        exact absurd hlit (by decide)

/-- Claim C7 counterexample: the state reached from an empty database by
`add_key`, `deprecate_key`, `revoke_key` holds a revoked record whose
`grace_until` is still present, so "`grace_until` is present iff the status
is deprecated" fails on a reachable database. -/
theorem field_presence_biconditional_fails :
    (revoke_key "k" 5
        ((deprecate_key "k" 1 0 ((add_key (fun s => s) [] 0 "k" "n" "d").2)).2)).2 =
      [("k", KeyRecord.mk "k" "n" "d" 0 none "revoked" 0 (some 0) (some 3600)
        (some 5))]
    ∧ ¬ (((KeyRecord.mk "k" "n" "d" 0 none "revoked" 0 (some 0) (some 3600)
        (some 5)).grace_until ≠ none ↔
      (KeyRecord.mk "k" "n" "d" 0 none "revoked" 0 (some 0) (some 3600)
        (some 5)).status = "deprecated")) := by
  refine ⟨by decide, by decide⟩

/-- Claim C7 amended: the invariant that actually holds on every reachable
database is one-directional — an active record carries no `grace_until`,
`revoked_at` or `deprecated_at`, a deprecated record carries `grace_until`,
and a revoked record carries `revoked_at` — and it is preserved by every
KeyStore operation (`add_key`, `find_key`, `deprecate_key`, `revoke_key`,
the sweep, legacy import); the stated biconditionals fail because revoking a
deprecated record keeps `grace_until` and deprecating a revoked one keeps
`revoked_at`. -/
theorem keystore_invariant_preserved :
    (∀ (hashKey : String → String) (db : KeysDb) (now : Time) (k n d : String),
      DbInv db → DbInv (add_key hashKey db now k n d).2)
    ∧ (∀ (hashKey : String → String) (db : KeysDb) (now : Time) (p : String),
      DbInv db → DbInv (find_key hashKey db now p).2)
    ∧ (∀ (h : String) (g : Int) (now : Time) (db : KeysDb),
      DbInv db → DbInv (deprecate_key h g now db).2)
    ∧ (∀ (h : String) (now : Time) (db : KeysDb),
      DbInv db → DbInv (revoke_key h now db).2)
    ∧ (∀ (now : Time) (db db' : KeysDb),
      DbInv db → cleanup_expired_keys now db = some db' → DbInv db')
    ∧ (∀ (hashKey : String → String) (now : Time) (ks : List String)
        (db : KeysDb), DbInv db → DbInv (migrate_legacy_keys hashKey now ks db)) := by
  refine ⟨?_, ?_, ?_, ?_, ?_, ?_⟩
  · intro hashKey db now k n d hdb
    simp only [add_key]
    refine dbInv_alistSet hdb ?_
    refine ⟨?_, ?_, ?_⟩
    · intro _
      exact ⟨rfl, rfl, rfl⟩
    · intro hcon
      have hlit : ("active" : String) = "deprecated" := hcon
      exact absurd hlit (by decide)
    · intro hcon
      have hlit : ("active" : String) = "revoked" := hcon
      exact absurd hlit (by decide)
  · intro hashKey db now p hdb
    simp only [find_key]
    cases hl : alistGet db (hashKey p) with
    | none => exact hdb
    | some kd =>
      exact dbInv_alistSet hdb
        (recInv_touchRecord now (hdb (hashKey p, kd) (alistGet_mem hl)))
  · intro h g now db hdb
    simp only [deprecate_key]
    cases hl : alistGet db h with
    | none => exact hdb
    | some kd => exact dbInv_alistSet hdb (recInv_deprecateRecord kd g now)
  · intro h now db hdb
    simp only [revoke_key]
    cases hl : alistGet db h with
    | none => exact hdb
    | some kd => exact dbInv_alistSet hdb (recInv_revokeRecord kd now)
  · intro now db db' hdb hclean
    intro q hq
    obtain ⟨p, hp, hcr⟩ := cleanup_mem_rev now hclean hq
    exact recInv_cleanupRecord (hdb p hp) hcr
  · intro hashKey now ks db hdb
    unfold migrate_legacy_keys
    exact dbInv_migrate_fold hashKey now ks.enum db hdb

theorem keystore_invariant_preserved_witness :
    DbInv [("k", KeyRecord.mk "k" "n" "" 0 none "active" 0 none none none)]
    ∧ DbInv (deprecate_key "k" 24 0
        [("k", KeyRecord.mk "k" "n" "" 0 none "active" 0 none none none)]).2
    ∧ DbInv (find_key (fun s => s)
        [("k", KeyRecord.mk "k" "n" "" 0 none "active" 0 none none none)] 5 "k").2 := by
  refine ⟨by decide, ?_, ?_⟩
  · exact keystore_invariant_preserved.2.2.1 "k" 24 0
      [("k", KeyRecord.mk "k" "n" "" 0 none "active" 0 none none none)]
      (by decide)
  · exact keystore_invariant_preserved.2.1 (fun s => s)
      [("k", KeyRecord.mk "k" "n" "" 0 none "active" 0 none none none)] 5 "k"
      (by decide)

/-- Claim C5 counterexample: `find_key` observing a deprecated record whose
grace deadline (10) is already past (now = 100) leaves it deprecated — it
only updates usage metadata — and `deprecate_key` refreshes the grace window
instead of revoking, so these KeyStore operations do not independently
re-check grace expiry. -/
theorem keystore_ops_skip_grace_recheck :
    (find_key (fun s => s)
        [("k", KeyRecord.mk "k" "n" "" 0 none "deprecated" 0 (some 0) (some 10)
          none)] 100 "k").2 =
      [("k", KeyRecord.mk "k" "n" "" 0 (some 100) "deprecated" 1 (some 0)
        (some 10) none)]
    ∧ (deprecate_key "k" 24 100
        [("k", KeyRecord.mk "k" "n" "" 0 none "deprecated" 0 (some 0) (some 10)
          none)]).2 =
      [("k", KeyRecord.mk "k" "n" "" 0 none "deprecated" 0 (some 100)
        (some 86500) none)]
    ∧ (100 : Time) > 10
    ∧ ("deprecated" : String) ≠ "revoked" := by
  refine ⟨by decide, by decide, by decide, by decide⟩

/-- Claim C5 amended: `find_key` and `deprecate_key` do not re-check grace
expiry — `find_key` returns an expired deprecated record still deprecated,
merely usage-updated, and `deprecate_key` refreshes its grace window — while
`revoke_key` revokes unconditionally; an expired deprecated record is instead
transitioned to revoked by the sweep `cleanup_expired_keys` and, at use time,
by `authenticate_request`, which revokes and rejects it on the very
authentication attempt that matches it. -/
theorem grace_expiry_enforced_by_sweep_and_auth :
    (∀ (hashKey : String → String) (db : KeysDb) (now : Time) (k : String)
      (kd : KeyRecord), alistGet db (hashKey k) = some kd →
      find_key hashKey db now k =
        (some (touchRecord kd now), alistSet db (hashKey k) (touchRecord kd now))
      ∧ (touchRecord kd now).status = kd.status)
    ∧ (∀ (h : String) (g : Int) (now : Time) (db : KeysDb) (kd : KeyRecord),
      alistGet db h = some kd →
      (deprecate_key h g now db).2 = alistSet db h (deprecateRecord kd g now))
    ∧ (∀ (h : String) (now : Time) (db : KeysDb) (kd : KeyRecord),
      alistGet db h = some kd →
      (revoke_key h now db).2 = alistSet db h (revokeRecord kd now))
    ∧ (∀ (now : Time) (db db' : KeysDb) (h0 : String) (kd : KeyRecord)
        (g : Time),
      cleanup_expired_keys now db = some db' → (h0, kd) ∈ db →
      kd.status = "deprecated" → kd.grace_until = some g → now > g →
      (h0, revokeRecord kd now) ∈ db')
    ∧ (∀ (hashKey : String → String) (haValid : String → Bool) (cfg : Config)
        (req : Request) (db : KeysDb) (now g : Time) (tok : String)
        (kd : KeyRecord),
      req.x_ingress_path = none →
      bearer_token (req.authorization.getD "") = some tok →
      (cfg.auth_mode = "api_key" ∨ cfg.auth_mode = "both") →
      alistGet db (hashKey tok) = some kd →
      kd.status = "deprecated" → kd.grace_until = some g → now > g →
      (authenticate_request hashKey haValid cfg req db now).1 =
        .fail "API key has expired (past grace period)"
      ∧ alistGet (authenticate_request hashKey haValid cfg req db now).2
          (hashKey tok) = some (revokeRecord (touchRecord kd now) now)) := by
  refine ⟨?_, ?_, ?_, ?_, ?_⟩
  · intro hashKey db now k kd hget
    refine ⟨?_, rfl⟩
    simp [find_key, hget]
  · intro h g now db kd hget
    simp [deprecate_key, hget]
  · intro h now db kd hget
    simp [revoke_key, hget]
  · intro now db db' h0 kd g hclean hmem hs hg hp
    obtain ⟨q, hq, hq1, hq2⟩ := cleanup_mem_of_mem now hclean hmem
    obtain ⟨q1, q2⟩ := q
    unfold cleanupRecord at hq2
    rw [if_pos hs, hg] at hq2
    have h3 : (if now > g then some (revokeRecord kd now) else some kd) =
        some q2 := hq2
    rw [if_pos hp] at h3
    injection h3 with h4
    have hq5 : q1 = h0 := hq1
    rw [h4]
    rw [hq5] at hq
    exact hq
  · intro hashKey haValid cfg req db now g tok kd hing hbear hmode hfind hdep
      hgrace hpast
    have hingress : req.x_ingress_path.isSome = false := by simp [hing]
    have hfull : authenticate_request hashKey haValid cfg req db now =
        (.fail "API key has expired (past grace period)",
         alistSet (alistSet db (hashKey tok) (touchRecord kd now)) (hashKey tok)
           (revokeRecord (touchRecord kd now) now)) := by
      simp only [authenticate_request, hingress, Bool.false_eq_true, if_false,
        hbear, if_pos hmode, find_key, hfind]
      simp only [touchRecord_status, touchRecord_grace_until, hdep, hgrace]
      simp only [if_pos hpast, revoke_key, alistGet_alistSet_self]
      simp [hdep]
    rw [hfull]
    exact ⟨rfl, alistGet_alistSet_self _ _ _⟩

theorem grace_expiry_enforced_by_sweep_and_auth_witness :
    find_key (fun s => s)
      [("d", KeyRecord.mk "d" "m" "" 0 none "deprecated" 2 (some 0) (some 10)
        none)] 100 "d" =
      (some (KeyRecord.mk "d" "m" "" 0 (some 100) "deprecated" 3 (some 0)
        (some 10) none),
       [("d", KeyRecord.mk "d" "m" "" 0 (some 100) "deprecated" 3 (some 0)
        (some 10) none)])
    ∧ ("d", revokeRecord (KeyRecord.mk "d" "m" "" 0 none "deprecated" 2 (some 0)
        (some 10) none) 100) ∈
      [("d", KeyRecord.mk "d" "m" "" 0 none "revoked" 2 (some 0) (some 10)
        (some 100))]
    ∧ (authenticate_request (fun s => s) (fun _ => false)
        (Config.mk false [] 30 500 "both" none [])
        (Request.mk none none (some "Bearer d") none none none "2.2.2.2")
        [("d", KeyRecord.mk "d" "m" "" 0 none "deprecated" 2 (some 0) (some 10)
          none)] 100).1 =
      .fail "API key has expired (past grace period)" := by
  refine ⟨?_, ?_, ?_⟩
  · have h := (grace_expiry_enforced_by_sweep_and_auth.1 (fun s => s)
      [("d", KeyRecord.mk "d" "m" "" 0 none "deprecated" 2 (some 0) (some 10)
        none)] 100 "d"
      (KeyRecord.mk "d" "m" "" 0 none "deprecated" 2 (some 0) (some 10) none)
      (by decide)).1
    exact h.trans (by decide)
  · exact grace_expiry_enforced_by_sweep_and_auth.2.2.2.1 100
      [("d", KeyRecord.mk "d" "m" "" 0 none "deprecated" 2 (some 0) (some 10)
        none)]
      [("d", KeyRecord.mk "d" "m" "" 0 none "revoked" 2 (some 0) (some 10)
        (some 100))]
      "d" (KeyRecord.mk "d" "m" "" 0 none "deprecated" 2 (some 0) (some 10) none)
      10 (by decide) (by decide) (by decide) (by decide) (by decide)
  · exact (grace_expiry_enforced_by_sweep_and_auth.2.2.2.2 (fun s => s)
      (fun _ => false) (Config.mk false [] 30 500 "both" none [])
      (Request.mk none none (some "Bearer d") none none none "2.2.2.2")
      [("d", KeyRecord.mk "d" "m" "" 0 none "deprecated" 2 (some 0) (some 10)
        none)] 100 10 "d"
      (KeyRecord.mk "d" "m" "" 0 none "deprecated" 2 (some 0) (some 10) none)
      rfl (by decide) (Or.inr rfl) (by decide) rfl rfl (by decide)).1

theorem check_ip_whitelist_eq_false_iff (cfg : Config) (ip : String) :
    check_ip_whitelist cfg ip = false ↔
      (cfg.ip_whitelist ≠ [] ∧ cfg.ip_whitelist.contains ip = false) := by
  unfold check_ip_whitelist
  rcases hw : cfg.ip_whitelist with _ | ⟨a, l⟩
  · simp
  · simp

theorem middleware_ipBlocked_iff (hashKey : String → String)
    (haValid : String → Bool) (cfg : Config) (req : Request) (db : KeysDb)
    (store : RateStore) (now : Time)
    (hkill : cfg.enable_emergency_disable = false)
    (hing : req.x_ingress_path = none) :
    ((security_middleware hashKey haValid cfg req db store now).1 = .ipBlocked ↔
      check_ip_whitelist cfg (get_client_ip req) = false) := by
  have hi : req.x_ingress_path.isSome = false := by simp [hing]
  constructor
  · intro hdec
    by_cases hw : check_ip_whitelist cfg (get_client_ip req) = false
    · exact hw
    · exfalso
      have hwt : check_ip_whitelist cfg (get_client_ip req) = true := by
        cases hc : check_ip_whitelist cfg (get_client_ip req)
        · exact absurd hc hw
        · rfl
      revert hdec
      rcases ha : authenticate_request hashKey haValid cfg req db now
        with ⟨res, db1⟩
      cases res with
      | exn =>
        simp [security_middleware, check_emergency_disable, hkill, hi, hwt, ha]
      | fail m =>
        simp [security_middleware, check_emergency_disable, hkill, hi, hwt, ha]
      | ok ident =>
        rcases hr : check_rate_limit cfg
            (get_client_ip req ++ ":" ++ authName ident) now store
          with ⟨⟨b, e⟩, store1⟩
        cases b <;>
          simp [security_middleware, check_emergency_disable, hkill, hi, hwt,
            ha, hr]
  · intro hw
    simp [security_middleware, check_emergency_disable, hkill, hi, hw]

/-- Claim C10 counterexample: a request that carries an empty
`X-Forwarded-For` header together with `X-Real-IP: 9.9.9.9` resolves to
`9.9.9.9`, not to the first comma-separated element of the present
`X-Forwarded-For` header (which is the empty string), because the code tests
Python truthiness, not header presence. -/
theorem client_ip_skips_empty_forwarded_header :
    (Request.mk none none none (some "") (some "9.9.9.9") none
      "1.1.1.1").x_forwarded_for = some ""
    ∧ get_client_ip
        (Request.mk none none none (some "") (some "9.9.9.9") none "1.1.1.1") =
      "9.9.9.9"
    ∧ ("9.9.9.9" : String) ≠ stripStr (firstCommaField "") := by
  refine ⟨rfl, by decide, by decide⟩

/-- Claim C10 amended: the resolved source address is the first
comma-separated element of `X-Forwarded-For`, stripped of surrounding
whitespace, when that header is present and non-empty; otherwise `X-Real-IP`
when present and non-empty; otherwise the transport peer address.  The
allow-list rejection of the middleware is decided exactly by this address
being absent from a configured non-empty allow-list, and the rate-limit
window the middleware mutates is the one keyed by this address joined with
the resolved identity name — so the caller controls the checked address
whenever it sends a non-empty forwarding header. -/
theorem client_ip_resolution (hashKey : String → String)
    (haValid : String → Bool) (cfg : Config) (req : Request) (db : KeysDb)
    (store : RateStore) (now : Time) :
    (truthy req.x_forwarded_for = true →
      get_client_ip req = stripStr (firstCommaField (req.x_forwarded_for.getD "")))
    ∧ (truthy req.x_forwarded_for = false → truthy req.x_real_ip = true →
      get_client_ip req = req.x_real_ip.getD "")
    ∧ (truthy req.x_forwarded_for = false → truthy req.x_real_ip = false →
      get_client_ip req = req.remote_addr)
    ∧ (cfg.enable_emergency_disable = false → req.x_ingress_path = none →
      ((security_middleware hashKey haValid cfg req db store now).1 = .ipBlocked ↔
        (cfg.ip_whitelist ≠ [] ∧
         cfg.ip_whitelist.contains (get_client_ip req) = false)))
    ∧ (∀ (ident : AuthIdentity) (db1 : KeysDb),
      authenticate_request hashKey haValid cfg req db now = (.ok ident, db1) →
      cfg.enable_emergency_disable = false →
      (req.x_ingress_path.isSome = true ∨
        check_ip_whitelist cfg (get_client_ip req) = true) →
      (security_middleware hashKey haValid cfg req db store now).2.2 =
        (check_rate_limit cfg (get_client_ip req ++ ":" ++ authName ident) now
          store).2) := by
  refine ⟨?_, ?_, ?_, ?_, ?_⟩
  · intro h1
    simp [get_client_ip, h1]
  · intro h1 h2
    simp [get_client_ip, h1, h2]
  · intro h1 h2
    simp [get_client_ip, h1, h2]
  · intro hkill hing
    exact (middleware_ipBlocked_iff hashKey haValid cfg req db store now hkill
      hing).trans (check_ip_whitelist_eq_false_iff cfg (get_client_ip req))
  · intro ident db1 hauth hkill hpass
    have hcond : ¬ (req.x_ingress_path.isSome = false ∧
        check_ip_whitelist cfg (get_client_ip req) = false) := by
      rcases hpass with h | h
      · intro hc
        rw [hc.1] at h
        simp at h
      · intro hc
        rw [h] at hc
        simp at hc
    rcases hr : check_rate_limit cfg
        (get_client_ip req ++ ":" ++ authName ident) now store
      with ⟨⟨b, e⟩, store1⟩
    cases b
    · simp only [security_middleware, check_emergency_disable, hkill,
        Bool.false_eq_true, if_false, hauth, hr]
      rw [if_neg hcond]
    · simp only [security_middleware, check_emergency_disable, hkill,
        Bool.false_eq_true, if_false, hauth, hr]
      rw [if_neg hcond]

theorem client_ip_resolution_witness :
    get_client_ip
        (Request.mk none none none (some " 7.7.7.7 , 8.8.8.8") none none
          "1.1.1.1") = "7.7.7.7"
    ∧ (security_middleware (fun s => s) (fun _ => true)
        (Config.mk false ["5.5.5.5"] 30 500 "api_key" none [])
        (Request.mk none none none (some "7.7.7.7") none none "5.5.5.5")
        [] [] 0).1 = .ipBlocked := by
  constructor
  · have h := (client_ip_resolution (fun s => s) (fun _ => true)
      (Config.mk false [] 30 500 "api_key" none [])
      (Request.mk none none none (some " 7.7.7.7 , 8.8.8.8") none none
        "1.1.1.1") [] [] 0).1 (by decide)
    exact h.trans (by decide)
  · exact ((client_ip_resolution (fun s => s) (fun _ => true)
      (Config.mk false ["5.5.5.5"] 30 500 "api_key" none [])
      (Request.mk none none none (some "7.7.7.7") none none "5.5.5.5")
      [] [] 0).2.2.2.1 rfl rfl).mpr (by decide)

end Gateway
